import Mathlib

/-!
Verification of the Videoshrinker repository (`app.py`, a single Streamlit
script driving FFmpeg).  The decision logic of the script — preset defaults,
resolution mapping, widget-enforced validation bounds, FFmpeg argument-list
construction, demo-mode simulation, result checking and temp-file cleanup —
is embedded shallowly below, translated directly from the source.
-/

namespace VideoShrinker

/-- The single-quote character, used inside the FFmpeg filter expressions
(`app.py` lines 194 and 196 use Python f-strings containing `'`). -/
def sq : String := String.mk [Char.ofNat 39]

/-- Video codec choice from the Advanced Options selectbox (`app.py` lines
90-95): the options are the encoder identifiers `libx264` (H.264) and
`libx265` (H.265). -/
inductive VideoCodec where
  | H264
  | H265
deriving DecidableEq, Repr

/-- The encoder identifier string each codec choice denotes, exactly the
selectbox option strings of `app.py` line 92. -/
def codec_id : VideoCodec → String
  | .H264 => "libx264"
  | .H265 => "libx265"

/-- The settings that reach the command construction in `app.py` lines
182-201: `crf_value`, `audio_bitrate`, `video_codec`, `scale_width`,
`framerate_limit`.  Widths and framerates are `Nat` because the widgets
(`app.py` lines 76-79 and 97-101) have `min_value=0`. -/
structure Settings where
  crf : Nat
  audioBitrate : String
  videoCodec : VideoCodec
  scaleWidth : Nat
  framerateLimit : Nat
deriving DecidableEq, Repr

/-- The scale filter expression of `app.py` line 194:
`f"scale='min({scale_width},iw)':'-2'"`. -/
def scale_filter (w : Nat) : String :=
  "scale=" ++ sq ++ "min(" ++ Nat.repr w ++ ",iw)" ++ sq ++ ":" ++ sq ++ "-2" ++ sq

/-- The frame-rate cap filter expression of `app.py` line 196:
`f"fps=fps='min({framerate_limit},source_fps)'"`. -/
def fps_filter (fr : Nat) : String :=
  "fps=fps=" ++ sq ++ "min(" ++ Nat.repr fr ++ ",source_fps)" ++ sq

/-- The `video_filters` list of `app.py` lines 192-196: the scale filter is
appended when `scale_width > 0`, then the fps filter when
`framerate_limit > 0` (the Python guards `scale_width and scale_width > 0`
reduce to `0 < w` on the widget-enforced non-negative values). -/
def video_filters (s : Settings) : List String :=
  (if 0 < s.scaleWidth then [scale_filter s.scaleWidth] else []) ++
    (if 0 < s.framerateLimit then [fps_filter s.framerateLimit] else [])

/-- The fixed leading part of the FFmpeg command, `app.py` lines 182-189. -/
def base_cmd (s : Settings) (in_path : String) : List String :=
  ["ffmpeg", "-y", "-i", in_path,
   "-vcodec", codec_id s.videoCodec,
   "-crf", Nat.repr s.crf,
   "-acodec", "aac",
   "-b:a", s.audioBitrate,
   "-movflags", "+faststart"]

/-- The conditional `-vf` segment of `app.py` lines 198-199: present exactly
when `video_filters` is non-empty (Python truthiness of the list), with the
filters comma-joined. -/
def filter_args (s : Settings) : List String :=
  if (video_filters s).isEmpty then []
  else ["-vf", String.intercalate "," (video_filters s)]

/-- The full FFmpeg argument list of `app.py` lines 182-201: base command,
then the conditional `-vf` segment, then `out_path` appended last. -/
def build_cmd (s : Settings) (in_path out_path : String) : List String :=
  let cmd := base_cmd s in_path
  let cmd := cmd ++ filter_args s
  cmd ++ [out_path]

/-- The quality-preset selectbox options of `app.py` lines 38-43. -/
inductive QualityPreset where
  | Custom
  | HighQuality
  | Balanced
  | SmallSize
deriving DecidableEq, Repr

/-- The default `(crf, audio)` pair each preset selects (`app.py` lines
46-53); the `else` branch gives Custom the fallback `(23, "128k")`. -/
def preset_defaults : QualityPreset → Nat × String
  | .HighQuality => (20, "192k")
  | .Balanced => (23, "128k")
  | .SmallSize => (28, "96k")
  | .Custom => (23, "128k")

/-- A Streamlit input widget: it shows `default` as its value and yields the
user interaction when one happened (`app.py` lines 55-59 and 81-86 pass the
preset defaults as the widget `value`/`index`, which the user may change). -/
def widget_value {α : Type} (default : α) (user : Option α) : α :=
  user.getD default

/-- The crf the script actually uses: the slider value, defaulting to the
preset's crf (`app.py` lines 55-59). -/
def resolved_crf (p : QualityPreset) (userCrf : Option Nat) : Nat :=
  widget_value (preset_defaults p).1 userCrf

/-- The audio bitrate the script actually uses: the selectbox value,
defaulting to the preset's bitrate (`app.py` lines 81-86). -/
def resolved_audio (p : QualityPreset) (userAudio : Option String) : String :=
  widget_value (preset_defaults p).2 userAudio

/-- The resolution selectbox options of `app.py` lines 62-66. -/
inductive ResolutionChoice where
  | keepOriginal
  | w1920
  | w1280
  | w854
  | customWidth (n : Nat)
deriving DecidableEq, Repr

/-- The `scale_width` the branch ladder of `app.py` lines 68-79 assigns to
each resolution choice (`Keep Original` leaves the initial 0; `Custom` takes
the number-input value, which has `min_value=0`). -/
def scale_width_of : ResolutionChoice → Nat
  | .keepOriginal => 0
  | .w1920 => 1920
  | .w1280 => 1280
  | .w854 => 854
  | .customWidth n => n

/-- Bounds and option sets enforced by the input widgets of `app.py`:
crf slider `min_value=15, max_value=35` (line 57). -/
def crf_min : Int := 15

/-- crf slider `max_value=35` (`app.py` line 57). -/
def crf_max : Int := 35

/-- The audio-bitrate selectbox options (`app.py` line 83). -/
def audio_options : List String := ["192k", "128k", "96k", "64k"]

/-- Width number-input `min_value=0` (`app.py` line 77). -/
def width_min : Int := 0

/-- Frame-rate number-input `min_value=0` (`app.py` line 99). -/
def framerate_min : Int := 0

/-- Frame-rate number-input `max_value=60` (`app.py` line 99). -/
def framerate_max : Int := 60

/-- A raw settings record before the widget bounds are imposed; integer
fields are `Int` so that out-of-range (negative) requests are expressible. -/
structure RawSettings where
  crf : Int
  audioBitrate : String
  videoCodec : VideoCodec
  width : Int
  framerate : Int
deriving DecidableEq, Repr

/-- Whether a raw record satisfies every widget-enforced bound of `app.py`
(slider 15-35, bitrate in the selectbox options, width ≥ 0,
framerate in 0-60). -/
def widget_accepts (r : RawSettings) : Bool :=
  decide (crf_min ≤ r.crf) && decide (r.crf ≤ crf_max) &&
    decide (r.audioBitrate ∈ audio_options) &&
    decide (width_min ≤ r.width) &&
    decide (framerate_min ≤ r.framerate) && decide (r.framerate ≤ framerate_max)

/-- The rejection a settings record outside the widget bounds receives
(the spec calls it `ValidationError`). -/
inductive ValidationError where
  | invalidSettings
deriving DecidableEq, Repr

/-- Resolution of a raw record: records inside the widget bounds pass
through unchanged (the widgets never clamp a value; they only refuse values
outside their bounds), all others are rejected. -/
def resolve_settings (r : RawSettings) : Except ValidationError RawSettings :=
  if widget_accepts r then .ok r else .error .invalidSettings

/-- An accepted raw record as the `Settings` the command builder consumes
(the casts are lossless on accepted records, whose integers are ≥ 0). -/
def to_settings (r : RawSettings) : Settings :=
  { crf := r.crf.toNat
    audioBitrate := r.audioBitrate
    videoCodec := r.videoCodec
    scaleWidth := r.width.toNat
    framerateLimit := r.framerate.toNat }

/-- The guarded pipeline: an argument list is built only downstream of a
successful resolution; a rejected record produces no list at all. -/
def build_cmd_checked (r : RawSettings) (in_path out_path : String) :
    Except ValidationError (List String) :=
  (resolve_settings r).map (fun s => build_cmd (to_settings s) in_path out_path)

/-- The success report of `app.py` lines 256-281: sizes in MB, percentage
reduction, and the download file name.  The source computes the sizes in
Python floats; they are embedded as exact rationals. -/
structure SuccessReport where
  originalSizeMB : ℚ
  compressedSizeMB : ℚ
  reduction : ℚ
  fileName : String
deriving DecidableEq, Repr

/-- `app.py` lines 261-263 and 278: `original_size = uploaded.size/1024/1024`,
`compressed_size = getsize(out_path)/1024/1024`,
`compression_ratio = (1 - compressed_size/original_size) * 100`, and the
download name `f"compressed_{uploaded.name}"`. -/
def mk_success (uploadedBytes outBytes : Nat) (name : String) : SuccessReport :=
  let original_size : ℚ := (uploadedBytes : ℚ) / 1024 / 1024
  let compressed_size : ℚ := (outBytes : ℚ) / 1024 / 1024
  { originalSizeMB := original_size
    compressedSizeMB := compressed_size
    reduction := (1 - compressed_size / original_size) * 100
    fileName := "compressed_" ++ name }

/-- The demo-mode report of `app.py` lines 221-232. -/
structure DemoReport where
  originalSizeMB : ℚ
  simulatedSizeMB : ℚ
  reduction : ℚ
  outputContent : String
deriving DecidableEq, Repr

/-- The demo branch of `app.py` lines 207-234: it writes the fixed bytes
`b"Demo compressed video file"` to the output file (line 216) and reports
`simulated_compressed_size = original_size * 0.6`, `compression_ratio = 40.0`
(lines 222-224).  Only `uploaded.size` is read; the uploaded content and the
chosen settings are never consulted, which the unused binders make plain. -/
def demo_run (uploadedBytes : Nat) (_content : String) (_s : Settings) : DemoReport :=
  let original_size : ℚ := (uploadedBytes : ℚ) / 1024 / 1024
  { originalSizeMB := original_size
    simulatedSizeMB := original_size * (0.6 : ℚ)
    reduction := 40.0
    outputContent := "Demo compressed video file" }

/-- The user-facing outcome of one compression request. -/
inductive Report where
  | ffmpegError (stderrText : String)
  | outputMissing
  | inputCreateError
  | unexpectedError (msg : String)
  | okReport (r : SuccessReport)
  | demoReport (d : DemoReport)
deriving DecidableEq, Repr

/-- Which reports the script shows through `st.error` (`app.py` lines 176,
251, 254, 284); the success and demo branches are the only non-failures. -/
def isFailure : Report → Bool
  | .okReport _ => false
  | .demoReport _ => false
  | _ => true

/-- The exit status and captured streams of the spawned process
(`app.py` lines 241-245). -/
structure ProcResult where
  returncode : Int
  stdoutText : String
  stderrText : String
deriving DecidableEq, Repr

/-- The result check of `app.py` lines 250-281: a non-zero exit shows the
captured stderr verbatim (`st.code(stderr)`), a missing or empty output file
is an error, and only otherwise is the success report produced. -/
def check_results (returncode : Int) (outExists : Bool) (outSize uploadedSize : Nat)
    (name stderrText : String) : Report :=
  if returncode ≠ 0 then .ffmpegError stderrText
  else if !outExists || outSize == 0 then .outputMissing
  else .okReport (mk_success uploadedSize outSize name)

/-- The real (non-demo) encode of `app.py` lines 236-281: the runner is
invoked once on the constructed command (`Popen` + `communicate`, no loop and
no retry); the second component records every spawn performed. -/
def real_encode (run : List String → ProcResult) (cmd : List String)
    (outExists : Bool) (outSize uploadedSize : Nat) (name : String) :
    Report × List (List String) :=
  let pr := run cmd
  (check_results pr.returncode outExists outSize uploadedSize name pr.stderrText, [cmd])

/-- The filesystem/locals state a request leaves behind: whether each
temporary file exists on disk, and whether its path variable got bound.
`NamedTemporaryFile(delete=False)` creates the file the moment the `with`
opens (`app.py` lines 165 and 171), but `in_path`/`out_path` are bound only
later (lines 168 and 172), so a file can exist while its name variable is
still unbound. -/
structure ReqState where
  inputExists : Bool
  inputBound : Bool
  outputExists : Bool
  outputBound : Bool
deriving DecidableEq, Repr

/-- How far the `try` body of `app.py` lines 162-284 can get: the input
tempfile constructor can raise (no file), `in_tmp.write(uploaded.getvalue())`
at line 166 can raise after the file was created but before `in_path` is
bound at line 168, the output tempfile constructor can raise, the input
verification at line 175 can fail, any later statement can raise, and the
demo or real branch can run. -/
inductive RunPath where
  | inputOpenFail
  | inputWriteFail
  | outputOpenFail
  | inputVerifyFail
  | lateException (msg : String)
  | demoPath (uploadedBytes : Nat) (content : String) (s : Settings)
  | realPath (pr : ProcResult) (outExists : Bool) (outSize uploadedBytes : Nat)
      (name : String)
deriving DecidableEq, Repr

/-- The `try` body: which temp files each path creates and binds, and the
report it produces.  All exceptions are caught at line 283.  On
`inputWriteFail` the input file is already on disk (created at line 165)
while `in_path` never got bound (line 168 was not reached). -/
def try_block : RunPath → ReqState × Report
  | .inputOpenFail => (⟨false, false, false, false⟩, .unexpectedError "tempfile")
  | .inputWriteFail => (⟨true, false, false, false⟩, .unexpectedError "write")
  | .outputOpenFail => (⟨true, true, false, false⟩, .unexpectedError "tempfile")
  | .inputVerifyFail => (⟨true, true, true, true⟩, .inputCreateError)
  | .lateException msg => (⟨true, true, true, true⟩, .unexpectedError msg)
  | .demoPath n c s => (⟨true, true, true, true⟩, .demoReport (demo_run n c s))
  | .realPath pr ex osz usz nm =>
      (⟨true, true, true, true⟩, check_results pr.returncode ex osz usz nm pr.stderrText)

/-- The cleanup of the `finally` block, `app.py` lines 286-294: each file is
removed only under the guard `'in_path' in locals() and os.path.exists(...)`
(respectively `out_path`), so an existing file whose path variable is unbound
is skipped; the whole attempt sits in a `try: ... except: pass`, so a failing
removal (modelled by `removeOk = false`) leaves the files and raises
nothing. -/
def cleanup_step (st : ReqState) (removeOk : Bool) : ReqState :=
  if removeOk then
    { st with
        inputExists := st.inputExists && !st.inputBound
        outputExists := st.outputExists && !st.outputBound }
  else st

/-- A whole request: the `try` body followed by the `finally` cleanup.  The
`finally` block never replaces the report the body produced — a cleanup
failure is swallowed by its inner `except: pass`. -/
def run_request (p : RunPath) (removeOk : Bool) : Report × ReqState :=
  let (st, rep) := try_block p
  (rep, cleanup_step st removeOk)

/-- Last index of `c` in `l` (Python `str.rfind`, as an `Option`). -/
def lastIdxOf (c : Char) : List Char → Option Nat
  | [] => none
  | x :: xs =>
      match lastIdxOf c xs with
      | some i => some (i + 1)
      | none => if x = c then some 0 else none

/-- Index of the last path separator, combining `\` (sep) and `/` (altsep)
as CPython ntpath does (the repository evidently runs on Windows, `app.py`
lines 119-124; for plain file names the posix variant agrees). -/
def sep_index (p : List Char) : Option Nat :=
  match lastIdxOf '\\' p, lastIdxOf '/' p with
  | some i, some j => some (max i j)
  | some i, none => some i
  | none, some j => some j
  | none, none => none

/-- CPython `os.path.splitext` (genericpath._splitext): split at the last
dot that lies after the last separator, unless every character between the
separator and that dot is itself a dot (so a leading-dot name like
`.bashrc` has no extension). -/
def splitext (p : List Char) : List Char × List Char :=
  match lastIdxOf '.' p with
  | none => (p, [])
  | some dotIndex =>
      let fnIdx : Nat :=
        match sep_index p with
        | none => 0
        | some i => i + 1
      let dotAfterSep : Bool :=
        match sep_index p with
        | none => true
        | some i => decide (i < dotIndex)
      if dotAfterSep then
        if (List.range dotIndex).any
            (fun j => decide (fnIdx ≤ j) && decide (p.getD j ' ' ≠ '.')) then
          (p.take dotIndex, p.drop dotIndex)
        else (p, [])
      else (p, [])

/-- `app.py` line 164: `input_suffix = os.path.splitext(uploaded.name)[1]
or '.mp4'` — the extension when `splitext` yields a non-empty one, else
`.mp4` (Python `or` takes the right operand on an empty string). -/
def input_suffix (name : String) : String :=
  let ext := (splitext name.toList).2
  if ext = [] then ".mp4" else String.mk ext

/-! ### Helper lemmas -/

lemma scale_filter_ne_fps_filter (w fr : Nat) : scale_filter w ≠ fps_filter fr := by
  intro h
  have h1 : (scale_filter w).data.head? = some 's' := rfl
  rw [h] at h1
  have h2 : (fps_filter fr).data.head? = some 'f' := rfl
  rw [h1] at h2
  exact absurd (Option.some.inj h2) (by decide)

lemma lastIdxOf_eq_none {c : Char} : ∀ {l : List Char}, c ∉ l → lastIdxOf c l = none := by
  intro l h
  induction l with
  | nil => rfl
  | cons x xs ih =>
      simp only [List.mem_cons, not_or] at h
      have hx : ¬x = c := fun hx => h.1 hx.symm
      simp [lastIdxOf, ih h.2, hx]

/-! ### Claim theorems -/

/-- C1: for every settings record and path pair, the constructed FFmpeg
argument list is deterministic and follows the exact fixed order: binary
name, overwrite flag, input flag + path, codec flag + identifier (H264 ↦
libx264, H265 ↦ libx265), quality flag + decimal crf, audio codec flag +
aac, audio bitrate flag + bitrate, `+faststart`, then the optional combined
filter flag, then the output path last. -/
theorem c1_argument_list (s : Settings) (in_path out_path : String) :
    build_cmd s in_path out_path =
      ["ffmpeg", "-y", "-i", in_path,
       "-vcodec", codec_id s.videoCodec,
       "-crf", Nat.repr s.crf,
       "-acodec", "aac",
       "-b:a", s.audioBitrate,
       "-movflags", "+faststart"]
      ++ (if (video_filters s).isEmpty then []
          else ["-vf", String.intercalate "," (video_filters s)])
      ++ [out_path]
    ∧ codec_id .H264 = "libx264" ∧ codec_id .H265 = "libx265"
    ∧ ∀ (s₂ : Settings) (i₂ o₂ : String),
        s = s₂ → in_path = i₂ → out_path = o₂ →
        build_cmd s in_path out_path = build_cmd s₂ i₂ o₂ := by
  refine ⟨rfl, rfl, rfl, ?_⟩
  rintro s₂ i₂ o₂ rfl rfl rfl
  rfl

/-- Witness for C1 at concrete input: the two determinism hypotheses are
discharged and the list is evaluated. -/
theorem c1_argument_list_witness :
    build_cmd ⟨30, "64k", VideoCodec.H265, 1280, 24⟩ "a.mp4" "b.mp4" =
      ["ffmpeg", "-y", "-i", "a.mp4", "-vcodec", "libx265", "-crf", "30",
       "-acodec", "aac", "-b:a", "64k", "-movflags", "+faststart",
       "-vf", scale_filter 1280 ++ "," ++ fps_filter 24, "b.mp4"] := by
  have h := c1_argument_list ⟨30, "64k", VideoCodec.H265, 1280, 24⟩ "a.mp4" "b.mp4"
  have hd := h.2.2.2 ⟨30, "64k", VideoCodec.H265, 1280, 24⟩ "a.mp4" "b.mp4" rfl rfl rfl
  exact hd.trans (h.1.trans (by decide))

/-- C2: the combined `-vf` flag appears iff `scaleWidth > 0` or
`framerateLimit > 0`; with both present its value is the scale expression
then the fps expression, comma-joined in that order; with both zero the
flag and its value are entirely absent (never an empty filter argument). -/
theorem c2_filter_flag (s : Settings) (in_path out_path : String) :
    (filter_args s ≠ [] ↔ 0 < s.scaleWidth ∨ 0 < s.framerateLimit)
    ∧ (0 < s.scaleWidth → 0 < s.framerateLimit →
        filter_args s =
          ["-vf", scale_filter s.scaleWidth ++ "," ++ fps_filter s.framerateLimit])
    ∧ (s.scaleWidth = 0 → s.framerateLimit = 0 →
        build_cmd s in_path out_path = base_cmd s in_path ++ [out_path])
    ∧ build_cmd s in_path out_path = base_cmd s in_path ++ filter_args s ++ [out_path] := by
  refine ⟨?_, ?_, ?_, rfl⟩
  · by_cases hw : 0 < s.scaleWidth <;> by_cases hf : 0 < s.framerateLimit <;>
      simp [filter_args, video_filters, hw, hf]
  · intro hw hf
    simp only [filter_args, video_filters, if_pos hw, if_pos hf]
    rfl
  · intro hw hf
    simp [build_cmd, filter_args, video_filters, hw, hf]

/-- Witness for C2 at a settings record with both sub-filters active. -/
theorem c2_filter_flag_witness :
    filter_args ⟨30, "64k", VideoCodec.H265, 1280, 24⟩ =
      ["-vf", scale_filter 1280 ++ "," ++ fps_filter 24] :=
  (c2_filter_flag ⟨30, "64k", VideoCodec.H265, 1280, 24⟩ "a" "b").2.1
    (by decide) (by decide)

/-- C3: the preset table maps HighQuality ↦ (20, 192k), Balanced ↦
(23, 128k), SmallSize ↦ (28, 96k), Custom ↦ fallback (23, 128k); and for
every valid Custom record the resolved crf/audio equal the explicitly
supplied values, never the table's. -/
theorem c3_preset_resolution :
    preset_defaults .HighQuality = (20, "192k")
    ∧ preset_defaults .Balanced = (23, "128k")
    ∧ preset_defaults .SmallSize = (28, "96k")
    ∧ preset_defaults .Custom = (23, "128k")
    ∧ ∀ (c : Nat) (a : String), 15 ≤ c → c ≤ 35 → a ∈ audio_options →
        resolved_crf .Custom (some c) = c ∧ resolved_audio .Custom (some a) = a := by
  exact ⟨rfl, rfl, rfl, rfl, fun c a _ _ _ => ⟨rfl, rfl⟩⟩

/-- Witness for C3 at supplied Custom values crf 30, audio 64k. -/
theorem c3_preset_resolution_witness :
    resolved_crf .Custom (some 30) = 30 ∧ resolved_audio .Custom (some "64k") = "64k" :=
  c3_preset_resolution.2.2.2.2 30 "64k" (by decide) (by decide) (by decide)

/-- C4: a record with crf outside 15-35, an audio bitrate outside the
allowed set, or a negative width/framerate is rejected before any argument
list is built; an accepted record passes through unchanged (no silent
clamping). -/
theorem c4_validation_rejects (r : RawSettings) (in_path out_path : String) :
    ((r.crf < crf_min ∨ crf_max < r.crf ∨ r.audioBitrate ∉ audio_options
        ∨ r.width < 0 ∨ r.framerate < 0) →
      build_cmd_checked r in_path out_path = .error .invalidSettings)
    ∧ (∀ s, resolve_settings r = .ok s → s = r) := by
  constructor
  · intro h
    by_cases hacc : widget_accepts r
    · exfalso
      simp only [widget_accepts, Bool.and_eq_true, decide_eq_true_eq] at hacc
      obtain ⟨⟨⟨⟨⟨h1, h2⟩, h3⟩, h4⟩, h5⟩, h6⟩ := hacc
      rcases h with h | h | h | h | h
      · exact absurd h1 (by omega)
      · exact absurd h2 (by omega)
      · exact h h3
      · exact absurd h4 (by simp [width_min] at h4 ⊢; omega)
      · exact absurd h5 (by simp [framerate_min] at h5 ⊢; omega)
    · simp [build_cmd_checked, resolve_settings, hacc, Except.map]
  · intro s hs
    unfold resolve_settings at hs
    split at hs
    · exact (Except.ok.inj hs).symm
    · exact Except.noConfusion hs

/-- Witness for C4: crf 10 and bitrate 999k are each rejected. -/
theorem c4_validation_rejects_witness :
    build_cmd_checked ⟨10, "128k", VideoCodec.H264, 0, 0⟩ "a" "b" =
        .error .invalidSettings
    ∧ build_cmd_checked ⟨23, "999k", VideoCodec.H264, 0, 0⟩ "a" "b" =
        .error .invalidSettings :=
  ⟨(c4_validation_rejects ⟨10, "128k", VideoCodec.H264, 0, 0⟩ "a" "b").1
      (Or.inl (by decide)),
   (c4_validation_rejects ⟨23, "999k", VideoCodec.H264, 0, 0⟩ "a" "b").1
      (Or.inr (Or.inr (Or.inl (by decide))))⟩

/-- C5: the resolution options map KeepOriginal ↦ 0, the three fixed
widths to 1920/1280/854, CustomWidth(n) ↦ n; and with KeepOriginal the
filter list contains no scale expression (only the optional fps cap). -/
theorem c5_resolution_mapping :
    scale_width_of .keepOriginal = 0
    ∧ scale_width_of .w1920 = 1920
    ∧ scale_width_of .w1280 = 1280
    ∧ scale_width_of .w854 = 854
    ∧ (∀ n, scale_width_of (.customWidth n) = n)
    ∧ ∀ s : Settings, s.scaleWidth = scale_width_of .keepOriginal →
        (∀ w, scale_filter w ∉ video_filters s)
        ∧ video_filters s =
            (if 0 < s.framerateLimit then [fps_filter s.framerateLimit] else []) := by
  refine ⟨rfl, rfl, rfl, rfl, fun n => rfl, ?_⟩
  intro s hs
  have h0 : s.scaleWidth = 0 := hs
  constructor
  · intro w hw
    rw [video_filters, h0] at hw
    by_cases hf : 0 < s.framerateLimit
    · simp [hf] at hw
      exact scale_filter_ne_fps_filter w s.framerateLimit hw
    · simp [hf] at hw
  · rw [video_filters, h0]
    simp

/-- Witness for C5 at a KeepOriginal record with a 30fps cap. -/
theorem c5_resolution_mapping_witness :
    scale_filter 1280 ∉ video_filters ⟨23, "128k", VideoCodec.H264, 0, 30⟩ :=
  ((c5_resolution_mapping.2.2.2.2.2 ⟨23, "128k", VideoCodec.H264, 0, 30⟩ rfl).1) 1280

/-- C6: outside demo mode the process is spawned exactly once on the
constructed command; the run is reported a failure exactly when the exit
code is non-zero or the output file is missing or empty; on a non-zero exit
the captured stderr is surfaced verbatim; and the success report is
produced only when none of these hold. -/
theorem c6_encode_failure_report (run : List String → ProcResult) (cmd : List String)
    (ex : Bool) (osz usz : Nat) (nm : String) :
    (real_encode run cmd ex osz usz nm).2 = [cmd]
    ∧ (isFailure (real_encode run cmd ex osz usz nm).1 = true ↔
        (run cmd).returncode ≠ 0 ∨ ex = false ∨ osz = 0)
    ∧ ((run cmd).returncode ≠ 0 →
        (real_encode run cmd ex osz usz nm).1 = .ffmpegError (run cmd).stderrText)
    ∧ ((run cmd).returncode = 0 → ex = true → 0 < osz →
        (real_encode run cmd ex osz usz nm).1 = .okReport (mk_success usz osz nm)) := by
  refine ⟨rfl, ?_, ?_, ?_⟩
  · by_cases hrc : (run cmd).returncode = 0
    · cases ex <;> by_cases h0 : osz = 0 <;>
        simp [real_encode, check_results, isFailure, hrc, h0]
    · simp [real_encode, check_results, isFailure, hrc]
  · intro h
    simp [real_encode, check_results, h]
  · intro h1 h2 h3
    subst h2
    simp [real_encode, check_results, isFailure, h1, Nat.pos_iff_ne_zero.mp h3]

/-- Witness for C6: a run exiting 1 is reported with its stderr verbatim. -/
theorem c6_encode_failure_report_witness :
    (real_encode (fun _ => ⟨1, "", "boom"⟩) ["ffmpeg"] true 5 10 "v").1 =
      .ffmpegError "boom" :=
  (c6_encode_failure_report (fun _ => ⟨1, "", "boom"⟩) ["ffmpeg"] true 5 10 "v").2.2.1
    (by decide)

/-- C7 (code bug): the claimed deletion-on-all-paths fails on the program.
When `in_tmp.write(uploaded.getvalue())` at `app.py` line 166 raises, the
input temp file already exists on disk (created at line 165) but `in_path`
is unbound (line 168 was not reached), so the `finally` guard
`'in_path' in locals()` at line 289 skips the removal and the file leaks —
first conjunct.  On every path the cleanup removes exactly the existing
files whose path variable got bound (third conjunct), so every fully-bound
path is cleaned; and a cleanup failure never changes the report the body
produced (second conjunct). -/
theorem c7_cleanup_leak :
    (run_request RunPath.inputWriteFail true).2 =
      { inputExists := true, inputBound := false,
        outputExists := false, outputBound := false }
    ∧ (∀ (p : RunPath) (removeOk : Bool),
        (run_request p removeOk).1 = (try_block p).2)
    ∧ ∀ p : RunPath,
        (run_request p true).2.inputExists =
          ((try_block p).1.inputExists && !(try_block p).1.inputBound)
        ∧ (run_request p true).2.outputExists =
          ((try_block p).1.outputExists && !(try_block p).1.outputBound) := by
  refine ⟨rfl, ?_, ?_⟩
  · intro p removeOk
    cases p <;> rfl
  · intro p
    cases p <;> exact ⟨rfl, rfl⟩

/-- C8: the success report exposes the original size, the compressed size,
the reduction `(1 - compressed/original) * 100` — 60% for 100 MB down to
40 MB — and the download artifact named `compressed_<originalName>`. -/
theorem c8_success_report (ob cb : Nat) (nm : String) :
    (mk_success ob cb nm).originalSizeMB = (ob : ℚ) / 1024 / 1024
    ∧ (mk_success ob cb nm).compressedSizeMB = (cb : ℚ) / 1024 / 1024
    ∧ (mk_success ob cb nm).reduction =
        (1 - ((cb : ℚ) / 1024 / 1024) / ((ob : ℚ) / 1024 / 1024)) * 100
    ∧ (mk_success ob cb nm).fileName = "compressed_" ++ nm
    ∧ (mk_success (100 * 1024 * 1024) (40 * 1024 * 1024) nm).reduction = 60 := by
  refine ⟨rfl, rfl, rfl, rfl, ?_⟩
  norm_num [mk_success]

/-- C9: the temporary input file suffix is the uploaded name's extension
(dot included) whenever `splitext` yields one, and `.mp4` otherwise — in
particular for any name containing no dot. -/
theorem c9_input_suffix (name : String) :
    ((splitext name.toList).2 = [] → input_suffix name = ".mp4")
    ∧ ((splitext name.toList).2 ≠ [] →
        input_suffix name = String.mk (splitext name.toList).2)
    ∧ (('.') ∉ name.toList → input_suffix name = ".mp4") := by
  refine ⟨?_, ?_, ?_⟩
  · intro h
    show (if (splitext name.toList).2 = [] then ".mp4"
          else String.mk (splitext name.toList).2) = ".mp4"
    rw [if_pos h]
  · intro h
    show (if (splitext name.toList).2 = [] then ".mp4"
          else String.mk (splitext name.toList).2) = _
    rw [if_neg h]
  · intro h
    have hn : (splitext name.toList).2 = [] := by
      unfold splitext
      rw [lastIdxOf_eq_none h]
    show (if (splitext name.toList).2 = [] then ".mp4"
          else String.mk (splitext name.toList).2) = ".mp4"
    rw [if_pos hn]

/-- Witness for C9: an extensionless name gets `.mp4`. -/
theorem c9_input_suffix_witness : input_suffix "README" = ".mp4" :=
  (c9_input_suffix "README").1 (by decide)

/-- C10: the demo pathway ignores the uploaded content and the settings:
the output bytes are always the fixed placeholder, the simulated size is
always 0.6 × the original size, and the reported reduction is always
40.0%. -/
theorem c10_demo_independent (n : Nat) (c₁ c₂ : String) (s₁ s₂ : Settings) :
    demo_run n c₁ s₁ = demo_run n c₂ s₂
    ∧ (demo_run n c₁ s₁).outputContent = "Demo compressed video file"
    ∧ (demo_run n c₁ s₁).simulatedSizeMB = ((n : ℚ) / 1024 / 1024) * (3 / 5)
    ∧ (demo_run n c₁ s₁).reduction = 40 := by
  refine ⟨rfl, rfl, ?_, ?_⟩
  · norm_num [demo_run]
  · norm_num [demo_run]

end VideoShrinker
